import Mathlib

/-!
Verification development for the Jarvis web-interface client runtime.

The definitions below are a shallow embedding of the client-side modules:

* `message-handler.js` — the streaming response assembler
  (`startNewAssistantResponse`, `appendToCurrentResponse`,
  `flushTokenBuffer`, `resetTokenBuffer`, `finishCurrentResponse`);
* `websocket-manager.js` — the message router (`routeWebSocketMessage`),
  the close/reconnect handler (`handleWebSocketClose`) and the open handler
  (`handleWebSocketOpen`);
* `settings-modal.js` — the preview/storage debounce machinery
  (`triggerVisualPreview`, `flushVisualPreview`, `debouncedLocalStorageSave`,
  `flushBatchedChanges`, `closeSettings`, `applyVisualChange`,
  `applyLightChanges`), the configuration diff (`getChangedSettings`) and
  the correlated save wait of `saveSettingsFromModal`;
* `variables-globals.js` — the session statistics (`stats`,
  `updateTTSEfficiency`).

Strings of the page are modelled as `String`; streamed fragment text is
modelled as `List Char` so that character-level reasoning is direct.
JavaScript numbers are modelled as `ℚ` (exact rationals), `Math.abs` as
`mathAbs`.  Browser timers are modelled explicitly: a scheduled timeout is
a flag (or an `Option` holding its delay) in the state, and a separate
`fire…` function is the callback the event loop runs when the timer
elapses.  DOM effects are modelled as the data they produce: a message
bubble is its text, `localStorage` is an association list, the visual
handlers (`setTheme`, `setBackground`, `setBackgroundOpacity`) write the
key they control into a `view` association list.
-/

/-! ## Streaming response assembler (`message-handler.js`)

The DOM holds a list of closed assistant bubbles and zero or more bubbles
carrying the id `current-response` (the source never removes the id of a
previous open bubble when a new one is created, so several may coexist;
`document.getElementById` then returns the first one in document order —
the head of `openTurns`). -/

/-- BATCH_SIZE from `message-handler.js`: flush once the buffer holds this
many characters. -/
def BATCH_SIZE : Nat := 5

/-- BATCH_TIMEOUT from `message-handler.js`: deferred flush delay in ms. -/
def BATCH_TIMEOUT : Nat := 100

/-- State of the streaming assembler: closed turns, open turns in document
order, the token buffer, and the pending deferred-flush timer (with its
delay in ms) if any. -/
structure AssemblerState where
  closed : List (List Char)
  openTurns : List (List Char)
  tokenBuffer : List Char
  bufferFlushTimer : Option Nat
deriving DecidableEq, Repr

/-- `resetTokenBuffer()`: clear the buffer and cancel any pending deferred
flush timer. -/
def resetTokenBuffer (st : AssemblerState) : AssemblerState :=
  { st with tokenBuffer := [], bufferFlushTimer := none }

/-- `flushTokenBuffer()`: if the buffer is nonempty, append it to the text
of the first element carrying the id `current-response` (if any) and reset
the buffer; if there is no open turn the buffered text is discarded. -/
def flushTokenBuffer (st : AssemblerState) : AssemblerState :=
  if st.tokenBuffer = [] then st
  else
    match st.openTurns with
    | [] => resetTokenBuffer st
    | t :: rest => resetTokenBuffer { st with openTurns := (t ++ st.tokenBuffer) :: rest }

/-- `startNewAssistantResponse()`: reset the token buffer, then append a
fresh empty bubble carrying the id `current-response`. -/
def startNewAssistantResponse (st : AssemblerState) : AssemblerState :=
  let st1 := resetTokenBuffer st
  { st1 with openTurns := st1.openTurns ++ [[]] }

/-- Characters matched by the regular expression `[.!?]` in
`appendToCurrentResponse`. -/
def strongPunct (c : Char) : Bool := c == '.' || c == '!' || c == '?'

/-- `appendToCurrentResponse(token)`: accumulate the token in the buffer;
flush immediately when the buffer reaches `BATCH_SIZE`, or the token holds
a line break, or the token holds strong punctuation; otherwise (re)start
the deferred flush timer at `BATCH_TIMEOUT` ms. -/
def appendToCurrentResponse (st : AssemblerState) (token : List Char) : AssemblerState :=
  let st1 := { st with tokenBuffer := st.tokenBuffer ++ token }
  if BATCH_SIZE ≤ st1.tokenBuffer.length ∨ token.contains '\n' ∨ token.any strongPunct then
    flushTokenBuffer st1
  else
    { st1 with bufferFlushTimer := some BATCH_TIMEOUT }

/-- `finishCurrentResponse()`: final flush, then remove the id (close the
first open turn) and timestamp it. -/
def finishCurrentResponse (st : AssemblerState) : AssemblerState :=
  let st1 := flushTokenBuffer st
  match st1.openTurns with
  | [] => st1
  | t :: rest => { st1 with openTurns := rest, closed := st1.closed ++ [t] }

/-! ## Message router (`websocket-manager.js`) -/

/-- Association-list lookup, first binding wins (JS `Map.get` / property
read). -/
def lookupAssoc {α : Type} : List (String × α) → String → Option α
  | [], _ => none
  | (k', v) :: rest, k => if k' = k then some v else lookupAssoc rest k

/-- Association-list update, in place if the key exists, appended otherwise
(JS `Map.set` / property write). -/
def setAssoc {α : Type} : List (String × α) → String → α → List (String × α)
  | [], k, v => [(k, v)]
  | (k', v') :: rest, k, v =>
    if k' = k then (k, v) :: rest else (k', v') :: setAssoc rest k v

/-- `routingMetrics` from `websocket-manager.js`. -/
structure RoutingMetrics where
  totalMessages : Nat
  routingTimeSum : ℚ
  unknownTypes : Nat
  mostFrequent : List (String × Nat)
deriving DecidableEq, Repr

/-- One step of `routingMetrics.mostFrequent`: bump the per-type counter. -/
def bumpFrequency (m : List (String × Nat)) (ty : String) : List (String × Nat) :=
  setAssoc m ty ((lookupAssoc m ty).getD 0 + 1)

/-- `routeWebSocketMessage(data)`: bump total and per-type counters, look
the handler up in the `messageRoutes` table; run it if found, otherwise
bump the unknown-type counter and log a warning (the returned `Bool`).
Both paths add the measured routing time to `routingTimeSum`.  The route
table is returned unchanged.  `σ` is the state the handlers act on. -/
def routeWebSocketMessage {σ : Type} (messageRoutes : List (String × (σ → σ)))
    (metrics : RoutingMetrics) (ui : σ) (msgType : String) (elapsed : ℚ) :
    List (String × (σ → σ)) × RoutingMetrics × σ × Bool :=
  let m1 := { metrics with
    totalMessages := metrics.totalMessages + 1,
    mostFrequent := bumpFrequency metrics.mostFrequent msgType }
  match lookupAssoc messageRoutes msgType with
  | some handler =>
    (messageRoutes, { m1 with routingTimeSum := m1.routingTimeSum + elapsed }, handler ui, false)
  | none =>
    (messageRoutes,
     { m1 with unknownTypes := m1.unknownTypes + 1,
               routingTimeSum := m1.routingTimeSum + elapsed },
     ui, true)

/-! ## Connection close / reconnect (`websocket-manager.js`) -/

/-- Reconnection delay (ms) used by `handleWebSocketClose`. -/
def RECONNECT_DELAY_MS : Nat := 3000

/-- Connection-manager state: the global `isConnected` flag. -/
structure ConnectionState where
  isConnected : Bool
deriving DecidableEq, Repr

/-- `handleWebSocketClose()`: mark the session disconnected and schedule
exactly one reconnection timer; the returned list holds the delays of the
timers scheduled by this call. -/
def handleWebSocketClose (s : ConnectionState) : ConnectionState × List Nat :=
  ({ s with isConnected := false }, [RECONNECT_DELAY_MS])

/-- `handleWebSocketOpen()`: mark the session connected. -/
def handleWebSocketOpen (s : ConnectionState) : ConnectionState :=
  { s with isConnected := true }

/-- The callback of the timer scheduled by `handleWebSocketClose`: attempt
a reconnection (returns `true`) only if still disconnected at fire time. -/
def reconnectTimerCallback (s : ConnectionState) : Bool :=
  !s.isConnected

/-! ## JavaScript values and the configuration diff (`settings-modal.js`)

JSON-like values: numbers are exact rationals, arrays are compared by
reference in the source (`!==` between two distinct parses is always
true), so an array value is modelled by its reference identity alone. -/

mutual
/-- A JavaScript value as handled by `getChangedSettings`. -/
inductive JVal where
  | num (q : ℚ)
  | str (s : String)
  | bool (b : Bool)
  | null
  | arrRef (r : Nat)
  | obj (fields : JFields)
deriving DecidableEq, Repr

/-- The own enumerable fields of a JavaScript object, in insertion order. -/
inductive JFields where
  | nil
  | cons (key : String) (val : JVal) (rest : JFields)
deriving DecidableEq, Repr
end

/-- Property read `o[k]`; `none` models `undefined`. -/
def JFields.lookup (k : String) : JFields → Option JVal
  | .nil => none
  | .cons k' v rest => if k' = k then some v else JFields.lookup k rest

/-- `Object.keys(o).length === 0`. -/
def JFields.isNil : JFields → Bool
  | .nil => true
  | _ => false

/-- `Math.abs` on the rational model of JavaScript numbers. -/
def mathAbs (q : ℚ) : ℚ := if q < 0 then -q else q

/-- JavaScript strict inequality `currentValue !== newValue` where the
left operand may be `undefined` (`none`).  Primitives compare by value;
two object or array operands of this code path come from distinct parses
and therefore compare by distinct references (`arrRef` identity for
arrays, always unequal for objects); operands of different types are
always `!==`. -/
def jsStrictNeq : Option JVal → JVal → Prop
  | some (.num a), .num b => a ≠ b
  | some (.str a), .str b => a ≠ b
  | some (.bool a), .bool b => a ≠ b
  | some .null, .null => False
  | some (.arrRef a), .arrRef b => a ≠ b
  | _, _ => True

instance (cur : Option JVal) (v : JVal) : Decidable (jsStrictNeq cur v) := by
  unfold jsStrictNeq; split <;> infer_instance

/-- The numeric epsilon test of `getChangedSettings`:
`isNumeric && Math.abs(currentValue - newValue) < 0.00001`. -/
def numClose : Option JVal → JVal → Prop
  | some (.num a), .num b => mathAbs (a - b) < 1 / 100000
  | _, _ => False

instance (cur : Option JVal) (v : JVal) : Decidable (numClose cur v) := by
  unfold numClose; split <;> infer_instance

mutual
/-- `getChangedSettings(current, newSettings)`: walk the keys of the
proposal; each key contributes at most one binding to the changes object,
computed by `getChangedSettingsEntry`. -/
def getChangedSettings (current newSettings : JFields) : JFields :=
  match newSettings with
  | .nil => .nil
  | .cons k v rest =>
    match getChangedSettingsEntry (current.lookup k) v with
    | some w => .cons k w (getChangedSettings current rest)
    | none => getChangedSettings current rest

/-- The loop body of `getChangedSettings` for one key: a plain (non-null,
non-array) object proposal recurses — the whole object is included when
the nested diff is nonempty or the baseline value is not itself a plain
object; anything else is included when strictly unequal to the baseline,
except numeric pairs within the epsilon. -/
def getChangedSettingsEntry (cur : Option JVal) (v : JVal) : Option JVal :=
  match v with
  | .obj nf =>
    match cur with
    | some (.obj cf) => if (getChangedSettings cf nf).isNil then none else some (.obj nf)
    | _ => some (.obj nf)
  | _ =>
    if jsStrictNeq cur v then
      if numClose cur v then none else some v
    else none
end

/-! ## Settings modal: debounced preview and storage (`settings-modal.js`)

Timer variables in the source (`previewTimer`, `localStorageTimer`) are
never reset to `null` after `clearTimeout`, so "the variable is truthy"
(`…Var`) and "a scheduled callback is still due" (`…Pending`) are distinct
and both are tracked. -/

/-- Settings-modal state: the two debounce timers, the batched pending
diff, the last-applied cache, the live view written by the visual
handlers, the durable `jarvis-settings` storage object, and the modal
flag. -/
structure SettingsState where
  previewVar : Bool
  previewPending : Bool
  storageVar : Bool
  storagePending : Bool
  batchedChanges : List (String × JVal)
  lastAppliedValues : List (String × JVal)
  view : List (String × JVal)
  storage : List (String × JVal)
  settingsModalOpen : Bool
deriving DecidableEq, Repr

/-- `VISUAL_FIELDS` indexed by element id: settings key, handler name,
immediate flag. -/
def visualFieldOfElement (elementId : String) : Option (String × String × Bool) :=
  if elementId = "interface-background" then some ("background", "setBackground", false)
  else if elementId = "background-opacity" then some ("background_opacity", "setBackgroundOpacity", true)
  else none

/-- `Object.values(VISUAL_FIELDS).find(f => f.key === key)`: handler name
and immediate flag of a settings key. -/
def visualFieldOfKey (key : String) : Option (String × Bool) :=
  if key = "background" then some ("setBackground", false)
  else if key = "background_opacity" then some ("setBackgroundOpacity", true)
  else none

/-- `applyVisualChange(key, value, handlerName)`: skip when the
last-applied cache already holds this value; otherwise record the value in
the cache and run the named handler (the three known handlers write the
key into the view; an unknown name falls through the `switch` and writes
nothing). -/
def applyVisualChange (st : SettingsState) (key : String) (value : JVal)
    (handlerName : String) : SettingsState :=
  if lookupAssoc st.lastAppliedValues key = some value then st
  else
    if handlerName = "setTheme" ∨ handlerName = "setBackground" ∨
        handlerName = "setBackgroundOpacity" then
      { st with lastAppliedValues := setAssoc st.lastAppliedValues key value,
                view := setAssoc st.view key value }
    else
      { st with lastAppliedValues := setAssoc st.lastAppliedValues key value }

/-- `debouncedLocalStorageSave()`: cancel any pending storage timer and
schedule a new one (the write itself happens when the timer fires). -/
def debouncedLocalStorageSave (st : SettingsState) : SettingsState :=
  { st with storageVar := true, storagePending := true }

/-- `Object.assign(savedSettings, updates)`. -/
def mergeAssoc (base updates : List (String × JVal)) : List (String × JVal) :=
  updates.foldl (fun acc kv => setAssoc acc kv.1 kv.2) base

/-- The callback of the storage debounce timer: merge the batched changes
read at fire time into the durable `jarvis-settings` object. -/
def fireStorageTimer (st : SettingsState) : SettingsState :=
  if st.storagePending then
    { st with storagePending := false, storage := mergeAssoc st.storage st.batchedChanges }
  else st

/-- `flushVisualPreview()`: apply every batched non-immediate visual
change through `applyVisualChange`, then hand off to the storage
debounce. -/
def flushVisualPreview (st : SettingsState) : SettingsState :=
  let st1 := st.batchedChanges.foldl
    (fun s kv =>
      match visualFieldOfKey kv.1 with
      | some (handler, immediate) =>
        if immediate then s else applyVisualChange s kv.1 kv.2 handler
      | none => s)
    st
  debouncedLocalStorageSave st1

/-- The callback of the preview debounce timer. -/
def firePreviewTimer (st : SettingsState) : SettingsState :=
  if st.previewPending then flushVisualPreview { st with previewPending := false } else st

/-- `triggerVisualPreview(elementId, value)`: record the change in the
batched diff (last write wins); apply immediately for immediate fields,
otherwise (re)start the preview debounce timer. -/
def triggerVisualPreview (st : SettingsState) (elementId : String) (value : JVal) :
    SettingsState :=
  match visualFieldOfElement elementId with
  | none => st
  | some (key, handler, immediate) =>
    let st1 := { st with batchedChanges := setAssoc st.batchedChanges key value }
    if immediate then applyVisualChange st1 key value handler
    else { st1 with previewVar := true, previewPending := true }

/-- `flushBatchedChanges()`: if the preview timer variable is truthy,
cancel the timer and run `flushVisualPreview`; if the storage timer
variable is truthy, cancel the timer and re-arm it via
`debouncedLocalStorageSave`; finally clear the batched diff. -/
def flushBatchedChanges (st : SettingsState) : SettingsState :=
  let st1 := if st.previewVar then flushVisualPreview { st with previewPending := false } else st
  let st2 :=
    if st1.storageVar then debouncedLocalStorageSave { st1 with storagePending := false } else st1
  { st2 with batchedChanges := [] }

/-- `closeSettings()`: flush the batched changes, then close the modal. -/
def closeSettings (st : SettingsState) : SettingsState :=
  let st1 := flushBatchedChanges st
  { st1 with settingsModalOpen := false }

/-- JavaScript truthiness of a value (`if (changes.theme)`). -/
def truthy : JVal → Bool
  | .num q => decide (q ≠ 0)
  | .str s => decide (s ≠ "")
  | .bool b => b
  | .null => false
  | .arrRef _ => true
  | .obj _ => true

/-- The view writes of `applyLightChanges`: `setTheme` when
`changes.theme` is truthy, `setBackground` when `changes.background` is
truthy, `setBackgroundOpacity` when `changes.background_opacity` is
defined. -/
def lightHandledView (remaining : List (String × JVal)) (view : List (String × JVal)) :
    List (String × JVal) :=
  let v1 := match lookupAssoc remaining "theme" with
    | some v => if truthy v then setAssoc view "theme" v else view
    | none => view
  let v2 := match lookupAssoc remaining "background" with
    | some v => if truthy v then setAssoc v1 "background" v else v1
    | none => v1
  match lookupAssoc remaining "background_opacity" with
  | some v => setAssoc v2 "background_opacity" v
  | none => v2

/-- `applyLightChanges(changes)`: drop entries whose value equals the
last-applied cache (recording the others in the cache); return unchanged
if nothing remains; otherwise run the visual handlers on the remaining
changes and merge them directly (no debounce) into durable storage. -/
def applyLightChanges (st : SettingsState) (changes : List (String × JVal)) : SettingsState :=
  let p := changes.foldl
    (fun acc kv =>
      if lookupAssoc acc.2 kv.1 = some kv.2 then acc
      else (acc.1 ++ [kv], setAssoc acc.2 kv.1 kv.2))
    (([] : List (String × JVal)), st.lastAppliedValues)
  if p.1 = [] then { st with lastAppliedValues := p.2 }
  else
    { st with lastAppliedValues := p.2,
              view := lightHandledView p.1 st.view,
              storage := mergeAssoc st.storage p.1 }

/-! ## The correlated save wait of `saveSettingsFromModal`

The commit sends one `config_update` message, attaches a one-shot message
listener, and schedules a 5000 ms timeout that resolves the promise with
`false`; the listener resolves it with `data.success === true` on the
first `config_updated` message, clearing the timeout and detaching
itself.  A JavaScript promise settles at most once (`resolveOnce`). -/

/-- Deadline (ms) of the correlated save wait. -/
def SAVE_DEADLINE_MS : Nat := 5000

/-- State of the correlated wait: the promise value once settled, whether
the timeout is still scheduled, whether the listener is still attached. -/
structure WaitState where
  settled : Option Bool
  timerPending : Bool
  listenerAttached : Bool
deriving DecidableEq, Repr

/-- Events the wait can observe: an inbound socket message (type tag and
`success` payload) or the firing of the deadline timer. -/
inductive WaitEvent where
  | message (ty : String) (success : Bool)
  | timerFire
deriving DecidableEq, Repr

/-- Promise resolution: the first settlement wins. -/
def resolveOnce (s : Option Bool) (v : Bool) : Option Bool :=
  match s with
  | some b => some b
  | none => some v

/-- State of the wait right after the `config_update` send. -/
def waitInit : WaitState :=
  { settled := none, timerPending := true, listenerAttached := true }

/-- State of the wait after the deadline fired with no response: the
promise is settled with `false`; the listener is never detached on this
path. -/
def waitFailed : WaitState :=
  { settled := some false, timerPending := false, listenerAttached := true }

/-- One event-loop step of the wait: `handleResponse` acts only while
attached and only on `config_updated` messages (clearing the timeout and
detaching itself); the timeout callback acts only while scheduled and
resolves the promise with `false`. -/
def stepWait (st : WaitState) (e : WaitEvent) : WaitState :=
  match e with
  | .message ty succ =>
    if st.listenerAttached && (ty == "config_updated") then
      { settled := resolveOnce st.settled succ, timerPending := false, listenerAttached := false }
    else st
  | .timerFire =>
    if st.timerPending then
      { st with settled := resolveOnce st.settled false, timerPending := false }
    else st

/-- Run the wait over a sequence of event-loop events. -/
def runWait (evs : List WaitEvent) : WaitState :=
  evs.foldl stepWait waitInit

/-- The observable outcome of one `saveSettingsFromModal` commit: the
number of `config_update` sends it performs (the body sends exactly once
and contains no retry path) and the awaited `success` value. -/
def saveSettingsCommit (evs : List WaitEvent) : Nat × Bool :=
  (1, ((runWait evs).settled).getD false)

/-! ## Session statistics (`variables-globals.js`) -/

/-- The `stats` global. -/
structure Stats where
  messages : Nat
  tokens : Nat
  totalTime : ℚ
  ttsEfficiency : ℚ
deriving DecidableEq, Repr

/-- The initial value of `stats` (also what `resetStats()` restores). -/
def statsInit : Stats :=
  { messages := 0, tokens := 0, totalTime := 0, ttsEfficiency := 100 }

/-- `updateTTSEfficiency(success)`: add 0.1 capped at 100 on success,
subtract 1 floored at 0 on failure. -/
def updateTTSEfficiency (success : Bool) (s : Stats) : Stats :=
  if success then { s with ttsEfficiency := min 100 (s.ttsEfficiency + 0.1) }
  else { s with ttsEfficiency := max 0 (s.ttsEfficiency - 1) }

/-! ## Theorems -/

/-- C1 counterexample: with one open turn holding "Hi" and the unflushed
fragment " all" in the append buffer, `startNewAssistantResponse` leaves
the previous turn's visible text at "Hi" (nothing is flushed into it),
closes nothing, and empties the buffer — the pending buffered content is
silently discarded, contradicting the claimed force-flush-and-close. -/
theorem startNewAssistantResponse_discards_buffer :
    startNewAssistantResponse
        { closed := [], openTurns := [['H', 'i']], tokenBuffer := [' ', 'a', 'l', 'l'],
          bufferFlushTimer := some BATCH_TIMEOUT } =
      { closed := [], openTurns := [['H', 'i'], []], tokenBuffer := [],
        bufferFlushTimer := none } := by
  rfl

/-- C1 amended: in every state, `startNewAssistantResponse` resets the
append buffer — discarding any unflushed fragment content and cancelling
any pending deferred-flush timer — and then opens a fresh empty turn; the
previous open turn is neither flushed into nor closed. -/
theorem startNewAssistantResponse_resets_and_opens (st : AssemblerState) :
    (startNewAssistantResponse st).tokenBuffer = [] ∧
    (startNewAssistantResponse st).bufferFlushTimer = none ∧
    (startNewAssistantResponse st).openTurns = st.openTurns ++ [[]] ∧
    (startNewAssistantResponse st).closed = st.closed := by
  simp [startNewAssistantResponse, resetTokenBuffer]

/-- C3: `appendToCurrentResponse` flushes synchronously exactly when the
buffer after appending the token reaches `BATCH_SIZE` (5), or the token
holds a line break, or the token holds one of `.` `!` `?`: in that case
the buffer is emptied, the deferred timer is cancelled, and the buffered
text is appended to the first open turn (discarded when none is open);
otherwise no flush happens and the deferred `BATCH_TIMEOUT` (100 ms) timer
is (re)started, replacing any previously pending timer. -/
theorem appendToCurrentResponse_flush_policy (st : AssemblerState) (token : List Char) :
    (BATCH_SIZE ≤ (st.tokenBuffer ++ token).length ∨ token.contains '\n' ∨
        token.any strongPunct →
      (appendToCurrentResponse st token).tokenBuffer = [] ∧
      (appendToCurrentResponse st token).bufferFlushTimer = none ∧
      (appendToCurrentResponse st token).closed = st.closed ∧
      (∀ t rest, st.openTurns = t :: rest →
        (appendToCurrentResponse st token).openTurns = (t ++ st.tokenBuffer ++ token) :: rest) ∧
      (st.openTurns = [] → (appendToCurrentResponse st token).openTurns = [])) ∧
    (¬ (BATCH_SIZE ≤ (st.tokenBuffer ++ token).length ∨ token.contains '\n' ∨
        token.any strongPunct) →
      appendToCurrentResponse st token =
        { st with tokenBuffer := st.tokenBuffer ++ token,
                  bufferFlushTimer := some BATCH_TIMEOUT }) := by
  constructor
  · intro h
    have hne : ¬ (st.tokenBuffer ++ token = []) := by
      intro hnil
      have htok : token = [] := (List.append_eq_nil.mp hnil).2
      rcases h with h | h | h
      · rw [hnil] at h
        simp [BATCH_SIZE] at h
      · rw [htok] at h
        simp at h
      · rw [htok] at h
        simp at h
    have happ : appendToCurrentResponse st token =
        flushTokenBuffer { st with tokenBuffer := st.tokenBuffer ++ token } := by
      simp only [appendToCurrentResponse]
      exact if_pos h
    rw [happ]
    cases hopen : st.openTurns with
    | nil =>
      simp [flushTokenBuffer, hne, hopen, resetTokenBuffer]
    | cons t rest =>
      simp [flushTokenBuffer, hne, hopen, resetTokenBuffer, List.append_assoc]
  · intro h
    have happ : appendToCurrentResponse st token =
        { st with tokenBuffer := st.tokenBuffer ++ token,
                  bufferFlushTimer := some BATCH_TIMEOUT } := by
      simp only [appendToCurrentResponse]
      exact if_neg h
    exact happ

/-- C3 witness: a fragment containing `.` flushes synchronously below the
length threshold ("Hi" ++ buffered "a" ++ token "b." yields the open-turn
text "Hiab."), while a two-character fragment with no boundary character
is only buffered and (re)starts the 100 ms deferred timer. -/
theorem appendToCurrentResponse_flush_policy_witness :
    (appendToCurrentResponse
        { closed := [], openTurns := [['H', 'i']], tokenBuffer := ['a'],
          bufferFlushTimer := none } ['b', '.']).openTurns = [['H', 'i', 'a', 'b', '.']] ∧
    appendToCurrentResponse
        { closed := [], openTurns := [['H', 'i']], tokenBuffer := [],
          bufferFlushTimer := none } ['o', 'k'] =
      { closed := [], openTurns := [['H', 'i']], tokenBuffer := ['o', 'k'],
        bufferFlushTimer := some BATCH_TIMEOUT } := by
  constructor
  · have h := (appendToCurrentResponse_flush_policy
        ⟨[], [['H', 'i']], ['a'], none⟩ ['b', '.']).1 (by decide)
    have h2 := h.2.2.2.1 ['H', 'i'] [] rfl
    simpa using h2
  · exact (appendToCurrentResponse_flush_policy
        ⟨[], [['H', 'i']], [], none⟩ ['o', 'k']).2 (by decide)

/-- C6: dispatching an envelope whose type has no registered handler
increments the unknown-type counter by exactly one, logs a warning (the
`true` flag), leaves the handler-side state untouched, leaves the route
table unchanged, and returns normally (the dispatch function is total, so
it cannot raise). -/
theorem routeWebSocketMessage_unknown {σ : Type} (messageRoutes : List (String × (σ → σ)))
    (metrics : RoutingMetrics) (ui : σ) (msgType : String) (elapsed : ℚ)
    (h : lookupAssoc messageRoutes msgType = none) :
    routeWebSocketMessage messageRoutes metrics ui msgType elapsed =
      (messageRoutes,
       { totalMessages := metrics.totalMessages + 1,
         routingTimeSum := metrics.routingTimeSum + elapsed,
         unknownTypes := metrics.unknownTypes + 1,
         mostFrequent := bumpFrequency metrics.mostFrequent msgType },
       ui, true) := by
  simp [routeWebSocketMessage, h]

/-- C6 witness: dispatching an envelope of the unregistered type
"mystery" against a one-route table bumps the unknown-type counter from 0
to exactly 1, warns, and leaves the route table and handler state as they
were. -/
theorem routeWebSocketMessage_unknown_witness :
    (routeWebSocketMessage [("llm_token", fun n => n + 1)]
        { totalMessages := 0, routingTimeSum := 0, unknownTypes := 0, mostFrequent := [] }
        (0 : Nat) "mystery" 0).2.1.unknownTypes = 1 ∧
    (routeWebSocketMessage [("llm_token", fun n => n + 1)]
        { totalMessages := 0, routingTimeSum := 0, unknownTypes := 0, mostFrequent := [] }
        (0 : Nat) "mystery" 0).2.2.2 = true ∧
    (routeWebSocketMessage [("llm_token", fun n => n + 1)]
        { totalMessages := 0, routingTimeSum := 0, unknownTypes := 0, mostFrequent := [] }
        (0 : Nat) "mystery" 0).1 = [("llm_token", fun n => n + 1)] ∧
    (routeWebSocketMessage [("llm_token", fun n => n + 1)]
        { totalMessages := 0, routingTimeSum := 0, unknownTypes := 0, mostFrequent := [] }
        (0 : Nat) "mystery" 0).2.2.1 = 0 := by
  have h := routeWebSocketMessage_unknown [("llm_token", fun (n : Nat) => n + 1)]
      { totalMessages := 0, routingTimeSum := 0, unknownTypes := 0, mostFrequent := [] }
      (0 : Nat) "mystery" 0 rfl
  exact ⟨by rw [h], by rw [h], by rw [h], by rw [h]⟩

/-- C8: a socket close marks the session disconnected and schedules
exactly one reconnection timer, with the fixed 3000 ms delay; at fire time
the callback attempts reconnection only if the session is still
disconnected, so if the connection was reopened before the delay elapsed
(`handleWebSocketOpen`), that close event produces no further attempt. -/
theorem handleWebSocketClose_single_reconnect (s : ConnectionState) :
    (handleWebSocketClose s).2 = [RECONNECT_DELAY_MS] ∧
    (handleWebSocketClose s).1.isConnected = false ∧
    reconnectTimerCallback (handleWebSocketClose s).1 = true ∧
    reconnectTimerCallback (handleWebSocketOpen (handleWebSocketClose s).1) = false := by
  simp [handleWebSocketClose, handleWebSocketOpen, reconnectTimerCallback]

/-- C4: when the proposal binds a key to a plain object, the baseline
binds the same key to a plain object, and the recursive diff of the two is
nonempty, `getChangedSettings` includes the entire proposed nested object
under that key — whole-branch-on-any-change granularity. -/
theorem getChangedSettings_whole_branch (current : JFields) (k : String)
    (cf nf rest : JFields)
    (hcur : current.lookup k = some (JVal.obj cf))
    (hne : (getChangedSettings cf nf).isNil = false) :
    getChangedSettings current (.cons k (.obj nf) rest) =
      .cons k (.obj nf) (getChangedSettings current rest) := by
  simp [getChangedSettings, getChangedSettingsEntry, hcur, hne]

/-- C4 witness: diffing baseline `{a:{x:1,y:2}}` against proposal
`{a:{x:1,y:3}}` yields `{a:{x:1,y:3}}` — the whole nested object, not just
the changed leaf. -/
theorem getChangedSettings_whole_branch_witness :
    getChangedSettings
        (.cons "a" (.obj (.cons "x" (.num 1) (.cons "y" (.num 2) .nil))) .nil)
        (.cons "a" (.obj (.cons "x" (.num 1) (.cons "y" (.num 3) .nil))) .nil) =
      .cons "a" (.obj (.cons "x" (.num 1) (.cons "y" (.num 3) .nil))) .nil := by
  have h := getChangedSettings_whole_branch
      (.cons "a" (.obj (.cons "x" (.num 1) (.cons "y" (.num 2) .nil))) .nil) "a"
      (.cons "x" (.num 1) (.cons "y" (.num 2) .nil))
      (.cons "x" (.num 1) (.cons "y" (.num 3) .nil)) .nil
      (by rfl)
      (by
        simp [getChangedSettings, getChangedSettingsEntry, JFields.lookup, jsStrictNeq,
          numClose, mathAbs, JFields.isNil]
        norm_num)
  rw [h]
  simp [getChangedSettings]

/-- C5: a numeric leaf of the proposal whose absolute difference from the
corresponding numeric baseline leaf is strictly below the epsilon 1e-5 is
excluded from the diff. -/
theorem getChangedSettings_epsilon (current : JFields) (k : String) (a b : ℚ)
    (rest : JFields)
    (hcur : current.lookup k = some (JVal.num a))
    (heps : |a - b| < 1 / 100000) :
    getChangedSettings current (.cons k (.num b) rest) = getChangedSettings current rest := by
  have habs : mathAbs (a - b) = |a - b| := by
    unfold mathAbs
    rcases lt_or_ge (a - b) 0 with h | h
    · rw [if_pos h, abs_of_neg h]
    · rw [if_neg (not_lt.mpr h), abs_of_nonneg h]
  by_cases hab : a = b
  · simp [getChangedSettings, getChangedSettingsEntry, hcur, jsStrictNeq, hab]
  · have heps' : mathAbs (a - b) < ((100000 : ℚ))⁻¹ := by
      rw [habs, ← one_div]
      exact heps
    simp [getChangedSettings, getChangedSettingsEntry, hcur, jsStrictNeq, hab, numClose, heps']

/-- C5 witness: diffing baseline `{t:0.700000001}` against proposal
`{t:0.7}` yields the empty diff (the difference 1e-9 is below the 1e-5
epsilon). -/
theorem getChangedSettings_epsilon_witness :
    getChangedSettings (.cons "t" (.num 0.700000001) .nil) (.cons "t" (.num 0.7) .nil) =
      .nil := by
  have h := getChangedSettings_epsilon (.cons "t" (.num 0.700000001) .nil) "t"
      0.700000001 0.7 .nil (by rfl) (by rw [abs_sub_lt_iff]; constructor <;> norm_num)
  rw [h]
  simp [getChangedSettings]

/-- Looking up a key right after writing it returns the written value. -/
theorem lookupAssoc_setAssoc_self {α : Type} (l : List (String × α)) (k : String) (v : α) :
    lookupAssoc (setAssoc l k v) k = some v := by
  induction l with
  | nil => simp [setAssoc, lookupAssoc]
  | cons kv rest ih =>
    obtain ⟨k', v'⟩ := kv
    by_cases h : k' = k
    · simp [setAssoc, lookupAssoc, h]
    · simp [setAssoc, lookupAssoc, h, ih]

/-- `applyVisualChange` skips entirely when the last-applied cache already
holds the value. -/
theorem applyVisualChange_skip (st : SettingsState) (key : String) (value : JVal)
    (handlerName : String) (h : lookupAssoc st.lastAppliedValues key = some value) :
    applyVisualChange st key value handlerName = st := by
  simp [applyVisualChange, h]

/-- After `applyVisualChange`, the last-applied cache holds the value. -/
theorem applyVisualChange_lookup_self (st : SettingsState) (key : String) (value : JVal)
    (handlerName : String) :
    lookupAssoc (applyVisualChange st key value handlerName).lastAppliedValues key =
      some value := by
  by_cases h : lookupAssoc st.lastAppliedValues key = some value
  · rw [applyVisualChange_skip st key value handlerName h]
    exact h
  · unfold applyVisualChange
    rw [if_neg h]
    split <;> simp [lookupAssoc_setAssoc_self]

/-- `applyLightChanges` with a single change skips entirely when the
last-applied cache already holds the value. -/
theorem applyLightChanges_skip (st : SettingsState) (key : String) (value : JVal)
    (h : lookupAssoc st.lastAppliedValues key = some value) :
    applyLightChanges st [(key, value)] = st := by
  simp [applyLightChanges, h]

/-- After `applyLightChanges` with a single change, the last-applied cache
holds the value. -/
theorem applyLightChanges_lookup_self (st : SettingsState) (key : String) (value : JVal) :
    lookupAssoc (applyLightChanges st [(key, value)]).lastAppliedValues key = some value := by
  by_cases h : lookupAssoc st.lastAppliedValues key = some value
  · rw [applyLightChanges_skip st key value h]
    exact h
  · simp [applyLightChanges, h, lookupAssoc_setAssoc_self]

/-- C9: a light change whose value equals the Last-Applied Cache entry for
its key is not re-applied (both `applyVisualChange` and
`applyLightChanges` return the state unchanged), and consequently applying
the same light change twice in succession has exactly the same effect as
applying it once. -/
theorem lightChange_idempotent (st : SettingsState) (key : String) (value : JVal)
    (handlerName : String) :
    (lookupAssoc st.lastAppliedValues key = some value →
      applyVisualChange st key value handlerName = st) ∧
    applyVisualChange (applyVisualChange st key value handlerName) key value handlerName =
      applyVisualChange st key value handlerName ∧
    (lookupAssoc st.lastAppliedValues key = some value →
      applyLightChanges st [(key, value)] = st) ∧
    applyLightChanges (applyLightChanges st [(key, value)]) [(key, value)] =
      applyLightChanges st [(key, value)] := by
  refine ⟨fun h => applyVisualChange_skip st key value handlerName h, ?_,
    fun h => applyLightChanges_skip st key value h, ?_⟩
  · exact applyVisualChange_skip _ _ _ _ (applyVisualChange_lookup_self st key value handlerName)
  · exact applyLightChanges_skip _ _ _ (applyLightChanges_lookup_self st key value)

/-- C9 witness: with "background" already cached at "b.png", re-applying
the same value through `applyVisualChange` or `applyLightChanges` leaves
the state (view, cache, storage, timers) exactly as it was. -/
theorem lightChange_idempotent_witness :
    applyVisualChange
        { previewVar := false, previewPending := false, storageVar := false,
          storagePending := false, batchedChanges := [],
          lastAppliedValues := [("background", JVal.str "b.png")],
          view := [("background", JVal.str "b.png")], storage := [],
          settingsModalOpen := true }
        "background" (JVal.str "b.png") "setBackground" =
      { previewVar := false, previewPending := false, storageVar := false,
        storagePending := false, batchedChanges := [],
        lastAppliedValues := [("background", JVal.str "b.png")],
        view := [("background", JVal.str "b.png")], storage := [],
        settingsModalOpen := true } ∧
    applyLightChanges
        { previewVar := false, previewPending := false, storageVar := false,
          storagePending := false, batchedChanges := [],
          lastAppliedValues := [("background", JVal.str "b.png")],
          view := [("background", JVal.str "b.png")], storage := [],
          settingsModalOpen := true }
        [("background", JVal.str "b.png")] =
      { previewVar := false, previewPending := false, storageVar := false,
        storagePending := false, batchedChanges := [],
        lastAppliedValues := [("background", JVal.str "b.png")],
        view := [("background", JVal.str "b.png")], storage := [],
        settingsModalOpen := true } := by
  constructor
  · exact (lightChange_idempotent
      { previewVar := false, previewPending := false, storageVar := false,
        storagePending := false, batchedChanges := [],
        lastAppliedValues := [("background", JVal.str "b.png")],
        view := [("background", JVal.str "b.png")], storage := [],
        settingsModalOpen := true }
      "background" (JVal.str "b.png") "setBackground").1 (by rfl)
  · exact (lightChange_idempotent
      { previewVar := false, previewPending := false, storageVar := false,
        storagePending := false, batchedChanges := [],
        lastAppliedValues := [("background", JVal.str "b.png")],
        view := [("background", JVal.str "b.png")], storage := [],
        settingsModalOpen := true }
      "background" (JVal.str "b.png") "setBackground").2.2.1 (by rfl)

/-- C2: with the queued edit `background := "stars.png"` behind a pending
preview debounce and an empty durable store, `closeSettings` does flush
the preview (the view receives the background), but it only re-arms the
storage debounce and then clears `batchedChanges`; when the re-armed
storage timer later fires it merges an empty object, so the queued edit is
never written to the durable `jarvis-settings` store — contradicting the
claim that no edit is lost to an in-flight timer. -/
theorem closeSettings_storage_never_written :
    lookupAssoc (closeSettings
        { previewVar := true, previewPending := true, storageVar := false,
          storagePending := false,
          batchedChanges := [("background", JVal.str "stars.png")],
          lastAppliedValues := [], view := [], storage := [],
          settingsModalOpen := true }).view "background" = some (JVal.str "stars.png") ∧
    (closeSettings
        { previewVar := true, previewPending := true, storageVar := false,
          storagePending := false,
          batchedChanges := [("background", JVal.str "stars.png")],
          lastAppliedValues := [], view := [], storage := [],
          settingsModalOpen := true }).storage = [] ∧
    (closeSettings
        { previewVar := true, previewPending := true, storageVar := false,
          storagePending := false,
          batchedChanges := [("background", JVal.str "stars.png")],
          lastAppliedValues := [], view := [], storage := [],
          settingsModalOpen := true }).storagePending = true ∧
    (closeSettings
        { previewVar := true, previewPending := true, storageVar := false,
          storagePending := false,
          batchedChanges := [("background", JVal.str "stars.png")],
          lastAppliedValues := [], view := [], storage := [],
          settingsModalOpen := true }).batchedChanges = [] ∧
    (fireStorageTimer (closeSettings
        { previewVar := true, previewPending := true, storageVar := false,
          storagePending := false,
          batchedChanges := [("background", JVal.str "stars.png")],
          lastAppliedValues := [], view := [], storage := [],
          settingsModalOpen := true })).storage = [] := by
  decide

/-- Once the save-wait promise has settled, no later event changes its
value (a promise settles at most once). -/
theorem stepWait_settled_stable (s : WaitState) (b : Bool) (e : WaitEvent)
    (h : s.settled = some b) : (stepWait s e).settled = some b := by
  cases e with
  | message ty succ =>
    by_cases hc : s.listenerAttached && (ty == "config_updated")
    · simp [stepWait, hc, resolveOnce, h]
    · simp [stepWait, hc, h]
  | timerFire =>
    by_cases hc : s.timerPending
    · simp [stepWait, hc, resolveOnce, h]
    · simp [stepWait, hc, h]

/-- Invariant of the save wait when no `config_updated` message arrives:
the state is the initial one until the deadline timer fires, and the
failure state forever afterwards. -/
theorem runWait_no_response (evs : List WaitEvent)
    (hno : ∀ b, WaitEvent.message "config_updated" b ∉ evs) (s : WaitState)
    (hs : s = waitInit ∨ s = waitFailed) :
    (evs.foldl stepWait s = waitInit ∨ evs.foldl stepWait s = waitFailed) ∧
    ((WaitEvent.timerFire ∈ evs ∨ s = waitFailed) → evs.foldl stepWait s = waitFailed) := by
  induction evs generalizing s with
  | nil =>
    refine ⟨hs, ?_⟩
    rintro (hmem | hfail)
    · exact absurd hmem (List.not_mem_nil _)
    · simpa using hfail
  | cons e rest ih =>
    have hno' : ∀ b, WaitEvent.message "config_updated" b ∉ rest := by
      intro b hb
      exact hno b (List.mem_cons_of_mem e hb)
    have hs' : (stepWait s e = waitInit ∨ stepWait s e = waitFailed) ∧
        (e = WaitEvent.timerFire ∨ s = waitFailed → stepWait s e = waitFailed) := by
      cases e with
      | message ty succ =>
        have hty : ¬ (ty = "config_updated") := by
          intro hty
          exact hno succ (by rw [← hty]; exact List.mem_cons_self _ _)
        have hc : ∀ w : WaitState, stepWait w (WaitEvent.message ty succ) = w := by
          intro w
          simp [stepWait, hty]
        rcases hs with h | h <;> subst h
        · refine ⟨Or.inl (hc _), ?_⟩
          rintro (habs | habs)
          · exact absurd habs (by simp)
          · exact absurd habs (by simp [waitInit, waitFailed])
        · exact ⟨Or.inr (hc _), fun _ => hc _⟩
      | timerFire =>
        rcases hs with h | h <;> subst h
        · refine ⟨Or.inr ?_, fun _ => ?_⟩ <;>
            simp [stepWait, waitInit, waitFailed, resolveOnce]
        · refine ⟨Or.inr ?_, fun _ => ?_⟩ <;>
            simp [stepWait, waitFailed]
    rw [List.foldl_cons]
    refine ⟨(ih hno' (stepWait s e) hs'.1).1, ?_⟩
    rintro (hmem | hfail)
    · rcases List.mem_cons.mp hmem with he | hmem'
      · exact (ih hno' (stepWait s e) hs'.1).2 (Or.inr (hs'.2 (Or.inl he.symm)))
      · exact (ih hno' (stepWait s e) hs'.1).2 (Or.inl hmem')
    · exact (ih hno' (stepWait s e) hs'.1).2 (Or.inr (hs'.2 (Or.inr hfail)))

/-- C7: a settings commit whose correlated `config_updated` response never
arrives performs exactly one `config_update` send (no automatic retry) and
reports failure once the fixed 5000 ms deadline timer fires; the two
outcomes are mutually exclusive — once the wait is settled (by either the
response or the deadline), no later event changes the result. -/
theorem saveSettingsFromModal_timeout (evs : List WaitEvent)
    (hno : ∀ b, WaitEvent.message "config_updated" b ∉ evs)
    (hfire : WaitEvent.timerFire ∈ evs) :
    saveSettingsCommit evs = (1, false) ∧
    (runWait evs).settled = some false ∧
    waitInit.timerPending = true ∧
    (∀ (s : WaitState) (b : Bool) (e : WaitEvent),
      s.settled = some b → (stepWait s e).settled = some b) := by
  have h := (runWait_no_response evs hno waitInit (Or.inl rfl)).2 (Or.inl hfire)
  refine ⟨?_, ?_, rfl, fun s b e hb => stepWait_settled_stable s b e hb⟩
  · simp [saveSettingsCommit, runWait, h, waitFailed]
  · simp [runWait, h, waitFailed]

/-- C7 witness: over the event sequence "one unrelated message, then the
deadline fires", the commit sends exactly once and reports failure. -/
theorem saveSettingsFromModal_timeout_witness :
    saveSettingsCommit [WaitEvent.message "llm_token" true, WaitEvent.timerFire] =
      (1, false) := by
  exact (saveSettingsFromModal_timeout
    [WaitEvent.message "llm_token" true, WaitEvent.timerFire]
    (by decide) (by decide)).1

/-- One `updateTTSEfficiency` step keeps the efficiency within [0, 100]. -/
theorem updateTTSEfficiency_step_bounds (success : Bool) (s : Stats)
    (h0 : 0 ≤ s.ttsEfficiency) (h100 : s.ttsEfficiency ≤ 100) :
    0 ≤ (updateTTSEfficiency success s).ttsEfficiency ∧
    (updateTTSEfficiency success s).ttsEfficiency ≤ 100 := by
  cases success with
  | true =>
    have he : (updateTTSEfficiency true s).ttsEfficiency =
        min 100 (s.ttsEfficiency + 0.1) := rfl
    rw [he]
    exact ⟨le_min (by norm_num) (by linarith), min_le_left _ _⟩
  | false =>
    have he : (updateTTSEfficiency false s).ttsEfficiency =
        max 0 (s.ttsEfficiency - 1) := rfl
    rw [he]
    exact ⟨le_max_left _ _, max_le (by norm_num) (by linarith)⟩

/-- C10: the TTS efficiency statistic starts at 100 and, along every
sequence of `updateTTSEfficiency` calls (each success adds 0.1 capped at
100, each failure subtracts 1 floored at 0), remains within the closed
interval [0, 100]. -/
theorem ttsEfficiency_bounded :
    statsInit.ttsEfficiency = 100 ∧
    ∀ events : List Bool,
      0 ≤ (events.foldl (fun s success => updateTTSEfficiency success s)
        statsInit).ttsEfficiency ∧
      (events.foldl (fun s success => updateTTSEfficiency success s)
        statsInit).ttsEfficiency ≤ 100 := by
  refine ⟨rfl, fun events => ?_⟩
  have key : ∀ (l : List Bool) (s : Stats), 0 ≤ s.ttsEfficiency → s.ttsEfficiency ≤ 100 →
      0 ≤ (l.foldl (fun s success => updateTTSEfficiency success s) s).ttsEfficiency ∧
      (l.foldl (fun s success => updateTTSEfficiency success s) s).ttsEfficiency ≤ 100 := by
    intro l
    induction l with
    | nil => intro s h0 h100; exact ⟨h0, h100⟩
    | cons b rest ih =>
      intro s h0 h100
      have hb := updateTTSEfficiency_step_bounds b s h0 h100
      exact ih (updateTTSEfficiency b s) hb.1 hb.2
  exact key events statsInit (by norm_num [statsInit]) (by norm_num [statsInit])
